import Mathlib

/-!
Shallow embedding of flask-sec-fetch-csrf (src/flask_sec_fetch_csrf/extension.py).

The extension classifies every incoming request as allowed or rejected
(CSRFError) using the Sec-Fetch-Site header, a trusted-origin allowlist and
an Origin/Host fallback comparison.  Python strings are modelled as Lean
String, absent headers as Option String (Python None), Python truthiness of
a header value as nonemptiness, a raised CSRFError as a reject verdict, and
any other raised exception (ValueError escaping from urllib) as the error
branch of Except.  The relevant part of CPython urllib.parse (urlsplit plus
the hostname and port properties of the result, as of CPython 3.10) is
embedded below; only ASCII case folding and the ASCII whitespace characters
are modelled, which covers every header value considered here.
-/

/-- Verdict of the classifier: a request is allowed through, or rejected with
the reason string carried by the raised CSRFError. -/
inductive Verdict where
  | allow : Verdict
  | reject (reason : String) : Verdict
deriving DecidableEq

/-- Configuration read by the extension (init_app defaults, extension.py
lines 85-89): SEC_FETCH_CSRF_METHODS, SEC_FETCH_CSRF_ALLOW_SAME_SITE and
SEC_FETCH_CSRF_TRUSTED_ORIGINS. -/
structure PolicyConfig where
  protectedMethods : List String
  allowSameSite : Bool
  trustedOrigins : List String
deriving DecidableEq

/-- Default configuration installed by init_app (extension.py lines 85-89). -/
def defaultConfig : PolicyConfig :=
  { protectedMethods := ["POST", "PUT", "PATCH", "DELETE"]
    allowSameSite := false
    trustedOrigins := [] }

/-- Per-request data read by the extension: method, routing information, the
raw header values (none when the header is absent), request.host, and the
request-scoped g._csrf_exempt flag.  viewLocation is the
module.name location of the endpoint's view function as resolved in
_is_exempt (none when no view function is registered for the endpoint). -/
structure RequestView where
  method : String
  endpoint : Option String
  blueprint : Option String
  viewLocation : Option String
  origin : Option String
  secFetchSite : Option String
  host : String
  xForwardedHost : Option String
  gCsrfExempt : Bool
deriving DecidableEq

/-- Python truthiness of an optional header value: None and the empty string
are falsy, every other string is truthy. -/
def headerTruthy : Option String → Bool
  | none => false
  | some s => s != ""

/-- Whitespace characters stripped by Python str.strip() and int(),
restricted to ASCII. -/
def pyWhitespaceChar (c : Char) : Bool :=
  c == ' ' || c == '\t' || c == '\n' || c == '\r' || c == '\x0b' || c == '\x0c'

/-- Python s.lower().strip() as used on the Sec-Fetch-Site value
(extension.py line 160), restricted to ASCII case folding. -/
def py_lower_strip (s : String) : String :=
  String.mk
    ((((s.toList.map Char.toLower).dropWhile pyWhitespaceChar).reverse.dropWhile
        pyWhitespaceChar).reverse)

/-! CPython urllib.parse model: the slice needed by _extract_host, namely
urlsplit's scheme/netloc extraction and the hostname/port properties. -/

/-- Characters that may appear in a URL scheme (urllib.parse.scheme_chars). -/
def isSchemeChar (c : Char) : Bool :=
  c.isAlpha || c.isDigit || c == '+' || c == '-' || c == '.'

/-- Leading C0-control-or-space stripping performed by urlsplit on the URL. -/
def lstripControlOrSpace (l : List Char) : List Char :=
  l.dropWhile (fun c => c.toNat ≤ 32)

/-- Removal of the unsafe bytes tab, CR and LF performed by urlsplit. -/
def stripUnsafeBytes (l : List Char) : List Char :=
  l.filter (fun c => !(c == '\t' || c == '\r' || c == '\n'))

/-- Scheme and netloc of a split URL (the only SplitResult fields used). -/
structure SplitUrl where
  scheme : String
  netloc : String
deriving DecidableEq

/-- Python str.partition written on char lists: the part before the first
occurrence of the separator, and the part after it when the separator
occurs. -/
def splitFirst (c : Char) (l : List Char) : List Char × Option (List Char) :=
  match l.findIdx? (fun x => x == c) with
  | some i => (l.take i, some (l.drop (i + 1)))
  | none => (l, none)

/-- Part of a char list after its last occurrence of the at sign, or the
whole list when there is none (Python netloc.rpartition of the at sign,
third component). -/
def afterLastAt (l : List Char) : List Char :=
  (l.reverse.takeWhile (fun c => !(c == '@'))).reverse

/-- Model of urllib.parse.urlsplit restricted to scheme and netloc: strip a
leading run of C0 controls and spaces, remove tab, CR and LF, split off a
valid scheme before the first colon, take the netloc after a double slash up
to the first slash, question mark or hash, and raise ValueError (the error
branch) when square brackets in the netloc are unbalanced. -/
def urlsplitModel (url : String) : Except String SplitUrl :=
  let u := stripUnsafeBytes (lstripControlOrSpace url.toList)
  let sr : String × List Char :=
    match u.findIdx? (fun x => x == ':') with
    | some i =>
      if 0 < i && (u.take i).all isSchemeChar &&
          (match u.head? with | some c => c.isAlpha | none => false) then
        (String.mk ((u.take i).map Char.toLower), u.drop (i + 1))
      else ("", u)
    | none => ("", u)
  let netloc : List Char :=
    if sr.2.take 2 == ['/', '/'] then
      (sr.2.drop 2).takeWhile (fun c => !(c == '/' || c == '?' || c == '#'))
    else []
  if (netloc.contains '[') != (netloc.contains ']') then
    Except.error "Invalid IPv6 URL"
  else
    Except.ok { scheme := sr.1, netloc := String.mk netloc }

/-- Model of SplitResult._hostinfo: raw hostname text and raw port text of a
netloc (userinfo before the last at sign dropped; bracketed hosts read up to
the closing bracket; an empty port is reported as absent). -/
def hostinfoOf (netloc : List Char) : List Char × Option (List Char) :=
  let hostinfo := afterLastAt netloc
  let hp : List Char × Option (List Char) :=
    if hostinfo.contains '[' then
      let bracketed := ((splitFirst '[' hostinfo).2).getD []
      let hb := splitFirst ']' bracketed
      (hb.1, match hb.2 with
             | some rest => (splitFirst ':' rest).2
             | none => none)
    else splitFirst ':' hostinfo
  (hp.1, match hp.2 with
         | some [] => none
         | some p => some p
         | none => none)

/-- Model of SplitResult.hostname: None for an empty host, otherwise the
host lowercased up to a percent sign with any IPv6 zone kept verbatim. -/
def parsedHostnameOf (netloc : List Char) : Option String :=
  let h := (hostinfoOf netloc).1
  if h.isEmpty then none
  else
    match splitFirst '%' h with
    | (pre, some zone) =>
      some (String.mk (pre.map Char.toLower) ++ "%" ++ String.mk zone)
    | (pre, none) => some (String.mk (pre.map Char.toLower))

/-- Digit run of a Python decimal int literal: decimal digits with single
underscores strictly between digits.  The flag records whether the previous
character was a digit, so an underscore is currently permitted. -/
def digitsUnd : List Char → Bool → Bool
  | [], prev => prev
  | c :: rest, prev =>
    if c.isDigit then digitsUnd rest true
    else if c == '_' then prev && digitsUnd rest false
    else false

/-- Numeric value of a digit run, skipping underscores. -/
def digitsVal (l : List Char) : Nat :=
  l.foldl (fun acc c => if c.isDigit then acc * 10 + (c.toNat - '0'.toNat) else acc) 0

/-- Model of Python int(s, 10) on a string: surrounding whitespace stripped,
an optional single sign, then a valid digit run; None when int() would raise
ValueError.  Only ASCII digits and whitespace are modelled. -/
def pyIntOfChars (l : List Char) : Option Int :=
  let t := (l.dropWhile pyWhitespaceChar).reverse.dropWhile pyWhitespaceChar |>.reverse
  match t with
  | '+' :: rest => if digitsUnd rest false then some (Int.ofNat (digitsVal rest)) else none
  | '-' :: rest => if digitsUnd rest false then some (-(Int.ofNat (digitsVal rest))) else none
  | _ => if digitsUnd t false then some (Int.ofNat (digitsVal t)) else none

/-- Model of SplitResult.port: absent port gives None; otherwise the port
text must parse as a Python int in the range 0..65535, and a failure raises
ValueError (the error branch). -/
def parsedPortOf (netloc : List Char) : Except String (Option Int) :=
  match (hostinfoOf netloc).2 with
  | none => Except.ok none
  | some p =>
    match pyIntOfChars p with
    | none =>
      Except.error ("Port could not be cast to integer value as " ++ String.mk p)
    | some n =>
      if 0 ≤ n && n ≤ 65535 then Except.ok (some n)
      else Except.error "Port out of range 0-65535"

/-- Python f-string rendering of an optional hostname (None prints as the
text None). -/
def hostDisplay : Option String → String
  | some s => s
  | none => "None"

/-- SecFetchCSRF._extract_host (extension.py lines 202-207): parse the
origin URL; when the port is truthy (nonzero) and not 80 or 443 return
hostname:port, otherwise return the hostname alone.  Accessing the port
property may raise ValueError, which propagates as the error branch. -/
def extract_host (origin : String) : Except String (Option String) :=
  match urlsplitModel origin with
  | Except.error e => Except.error e
  | Except.ok su =>
    match parsedPortOf su.netloc.toList with
    | Except.error e => Except.error e
    | Except.ok portOpt =>
      let hostname := parsedHostnameOf su.netloc.toList
      match portOpt with
      | some p =>
        if p != 0 && p != 80 && p != 443 then
          Except.ok (some (hostDisplay hostname ++ ":" ++ toString p))
        else Except.ok hostname
      | none => Except.ok hostname

/-- SecFetchCSRF._get_target_host (extension.py lines 195-200): the
X-Forwarded-Host header when present, else request.host (the Host
header). -/
def get_target_host (view : RequestView) : String :=
  match view.xForwardedHost with
  | some h => h
  | none => view.host

/-- Python inequality origin_host != target_host with origin_host optional:
None never equals a string. -/
def originHostEq : Option String → String → Bool
  | some s, t => s == t
  | none, _ => false

/-- SecFetchCSRF._validate_origin (extension.py lines 183-193): compare the
extracted origin host against the target host; mismatch raises CSRFError
with the Origin value interpolated. -/
def validate_origin (view : RequestView) (origin : String) : Except String Verdict :=
  match extract_host origin with
  | Except.error e => Except.error e
  | Except.ok originHost =>
    if originHostEq originHost (get_target_host view) then Except.ok Verdict.allow
    else Except.ok (Verdict.reject ("Origin mismatch: " ++ origin))

/-- SecFetchCSRF._validate_sec_fetch_site (extension.py lines 152-181):
lowercase and strip the value, then allow same-origin and none, allow
same-site only when configured, reject cross-site, and reject unknown
values with the normalized value interpolated. -/
def validate_sec_fetch_site (cfg : PolicyConfig) (s : String) : Verdict :=
  let v := py_lower_strip s
  if v == "same-origin" then Verdict.allow
  else if v == "none" then Verdict.allow
  else if v == "same-site" then
    if cfg.allowSameSite then Verdict.allow
    else Verdict.reject "Same-site requests are not allowed."
  else if v == "cross-site" then Verdict.reject "Cross-site requests are not allowed."
  else Verdict.reject ("Unknown Sec-Fetch-Site value: " ++ v)

/-- Step 2 condition of SecFetchCSRF.protect (extension.py line 137): the
Origin header is truthy and appears verbatim in the trusted-origins list. -/
def trustedOriginHit (cfg : PolicyConfig) (origin : Option String) : Bool :=
  headerTruthy origin && decide ((origin.getD "") ∈ cfg.trustedOrigins)

/-- SecFetchCSRF.protect (extension.py lines 124-150): trusted-origin
allowlist, then Sec-Fetch-Site evaluation when that header is truthy, then
the no-header bypass, then the Origin/Host comparison. -/
def protect (cfg : PolicyConfig) (view : RequestView) : Except String Verdict :=
  if trustedOriginHit cfg view.origin then Except.ok Verdict.allow
  else if headerTruthy view.secFetchSite then
    Except.ok (validate_sec_fetch_site cfg (view.secFetchSite.getD ""))
  else if !headerTruthy view.origin then Except.ok Verdict.allow
  else validate_origin view (view.origin.getD "")

/-- Exemption registry held by the SecFetchCSRF instance (extension.py
lines 70-72): exempt view locations and exempt blueprint names.  The Python
sets are modelled as duplicate-free lists via insert-if-absent. -/
structure ExemptionRegistry where
  exemptViews : List String
  exemptBlueprints : List String
deriving DecidableEq

/-- Empty registry created by SecFetchCSRF.__init__. -/
def emptyRegistry : ExemptionRegistry :=
  { exemptViews := [], exemptBlueprints := [] }

/-- Argument of SecFetchCSRF.exempt: a Blueprint (identified by its name) or
a view function (identified by its defining module and name). -/
inductive Exemptable where
  | blueprint (name : String) : Exemptable
  | view (moduleName : String) (name : String) : Exemptable
deriving DecidableEq

/-- View location string built in exempt and _is_exempt (extension.py lines
118 and 230): module.name of the view function. -/
def viewLocationOf (moduleName name : String) : String :=
  moduleName ++ "." ++ name

/-- SecFetchCSRF.exempt (extension.py lines 209-233): add the blueprint name
or the view location to the corresponding set and return the argument
unchanged. -/
def exempt (reg : ExemptionRegistry) (x : Exemptable) : ExemptionRegistry × Exemptable :=
  match x with
  | Exemptable.blueprint n =>
    ({ reg with exemptBlueprints := reg.exemptBlueprints.insert n }, x)
  | Exemptable.view m n =>
    ({ reg with exemptViews := reg.exemptViews.insert (viewLocationOf m n) }, x)

/-- SecFetchCSRF._is_exempt (extension.py lines 108-122): the request-scoped
g flag, the request blueprint, or the resolved view location grants
exemption. -/
def is_exempt (reg : ExemptionRegistry) (view : RequestView) : Bool :=
  view.gCsrfExempt ||
  (match view.blueprint with
   | some b => decide (b ∈ reg.exemptBlueprints)
   | none => false) ||
  (match view.viewLocation with
   | some l => decide (l ∈ reg.exemptViews)
   | none => false)

/-- SecFetchCSRF.SAFE_METHODS (extension.py line 68). -/
def SAFE_METHODS : List String := ["GET", "HEAD", "OPTIONS", "TRACE"]

/-- The before_request handler sec_fetch_csrf_protect (extension.py lines
91-106): safe methods, unprotected methods, unrouted requests and exempt
requests pass; otherwise protect runs. -/
def sec_fetch_csrf_protect (cfg : PolicyConfig) (reg : ExemptionRegistry)
    (view : RequestView) : Except String Verdict :=
  if decide (view.method ∈ SAFE_METHODS) then Except.ok Verdict.allow
  else if !decide (view.method ∈ cfg.protectedMethods) then Except.ok Verdict.allow
  else if view.endpoint.isNone then Except.ok Verdict.allow
  else if is_exempt reg view then Except.ok Verdict.allow
  else protect cfg view

/-- Normalization of the origin host as the specification words it
(spec section 4.3 step 8, for comparison with extract_host): hostname alone
when the port is absent or equals the default port of the URL scheme, 80
for http and 443 for https, else hostname:port. -/
def specNormalizeOriginHost (origin : String) : Except String (Option String) :=
  match urlsplitModel origin with
  | Except.error e => Except.error e
  | Except.ok su =>
    match parsedPortOf su.netloc.toList with
    | Except.error e => Except.error e
    | Except.ok portOpt =>
      let hostname := parsedHostnameOf su.netloc.toList
      match portOpt with
      | some p =>
        if (su.scheme == "http" && p == 80) || (su.scheme == "https" && p == 443) then
          Except.ok hostname
        else Except.ok (some (hostDisplay hostname ++ ":" ++ toString p))
      | none => Except.ok hostname

/-- Normalization of the origin host as the code actually performs it,
stated in the words of the amended claim: hostname alone when the port is
absent, zero, or equal to 80 or 443 irrespective of the scheme, else
hostname:port. -/
def amendedNormalizeOriginHost (origin : String) : Except String (Option String) :=
  match urlsplitModel origin with
  | Except.error e => Except.error e
  | Except.ok su =>
    match parsedPortOf su.netloc.toList with
    | Except.error e => Except.error e
    | Except.ok portOpt =>
      let hostname := parsedHostnameOf su.netloc.toList
      match portOpt with
      | some p =>
        if p == 0 || p == 80 || p == 443 then Except.ok hostname
        else Except.ok (some (hostDisplay hostname ++ ":" ++ toString p))
      | none => Except.ok hostname

/-- Prefix test on char lists. -/
def listStartsWith : List Char → List Char → Bool
  | [], _ => true
  | _ :: _, [] => false
  | a :: as, b :: bs => a == b && listStartsWith as bs

/-- Contiguous-sublist test on char lists. -/
def listIsInfix (needle hay : List Char) : Bool :=
  match hay with
  | [] => needle.isEmpty
  | _ :: rest => listStartsWith needle hay || listIsInfix needle rest

/-- Substring containment on strings (Python operator in). -/
def strContains (hay needle : String) : Bool :=
  listIsInfix needle.toList hay.toList

instance instDecEqExcept {ε α : Type} [DecidableEq ε] [DecidableEq α] :
    DecidableEq (Except ε α) := fun x y =>
  match x, y with
  | Except.error a, Except.error b =>
    if h : a = b then isTrue (by rw [h])
    else isFalse (fun hc => by cases hc; exact h rfl)
  | Except.error _, Except.ok _ => isFalse (fun hc => by cases hc)
  | Except.ok _, Except.error _ => isFalse (fun hc => by cases hc)
  | Except.ok a, Except.ok b =>
    if h : a = b then isTrue (by rw [h])
    else isFalse (fun hc => by cases hc; exact h rfl)

/-- Baseline protected request used by the concrete witnesses: POST to a
routed, non-exempt endpoint with no provenance headers. -/
def postView : RequestView :=
  { method := "POST"
    endpoint := some "submit"
    blueprint := none
    viewLocation := some "conftest.submit"
    origin := none
    secFetchSite := none
    host := "localhost"
    xForwardedHost := none
    gCsrfExempt := false }

/-- View for the C1 witness: protected POST carrying Sec-Fetch-Site
cross-site. -/
def crossSiteView : RequestView :=
  { postView with secFetchSite := some "cross-site" }

/-- Configuration for the C4 witness: one trusted origin. -/
def trustedCfg : PolicyConfig :=
  { defaultConfig with trustedOrigins := ["https://trusted.example.com"] }

/-- View for the C4 witness: trusted Origin together with a hostile
Sec-Fetch-Site value. -/
def trustedView : RequestView :=
  { postView with origin := some "https://trusted.example.com"
                  secFetchSite := some "cross-site" }

/-- View for the C5 witness: GET with hostile provenance headers. -/
def hostileGetView : RequestView :=
  { postView with method := "GET"
                  origin := some "https://evil.com"
                  secFetchSite := some "cross-site" }

/-- View for the C7 witness: POST with a mismatched Origin and no
Sec-Fetch-Site header. -/
def mismatchView : RequestView :=
  { postView with origin := some "https://evil.com" }

/-- View for the C10 witness: protected POST whose Origin and Sec-Fetch-Site
headers are present but empty. -/
def emptyHeadersView : RequestView :=
  { postView with origin := some "", secFetchSite := some "" }

/-- When protect allows, the whole before_request handler allows: every
earlier branch of the handler already returns allow. -/
theorem protect_allow_handler_allow (cfg : PolicyConfig) (reg : ExemptionRegistry)
    (view : RequestView) (hp : protect cfg view = Except.ok Verdict.allow) :
    sec_fetch_csrf_protect cfg reg view = Except.ok Verdict.allow := by
  unfold sec_fetch_csrf_protect
  repeat' split
  any_goals rfl
  exact hp

/-- A char list is a prefix of itself. -/
theorem listStartsWith_self (l : List Char) : listStartsWith l l = true := by
  induction l with
  | nil => rfl
  | cons a as ih => simp [listStartsWith, ih]

/-- A char list is an infix of anything it ends. -/
theorem listIsInfix_append_right (pre l : List Char) :
    listIsInfix l (pre ++ l) = true := by
  induction pre with
  | nil =>
    cases l with
    | nil => rfl
    | cons a as => simp [listIsInfix, listStartsWith_self]
  | cons p ps ih => simp [listIsInfix, ih]

/-- A string contains every suffix of itself as a substring. -/
theorem strContains_append_right (a b : String) : strContains (a ++ b) b = true := by
  have h : (a ++ b).toList = a.toList ++ b.toList := by
    simp [String.toList]
  simp [strContains, h, listIsInfix_append_right]

/-- C1: when a nonempty Sec-Fetch-Site header is present and the
trusted-origin allowlist does not fire, protect returns exactly the
Sec-Fetch-Site evaluation — same-origin and none allow, cross-site rejects
with reason Cross-site requests are not allowed., same-site allows exactly
when allowSameSite is set and otherwise rejects with reason Same-site
requests are not allowed. — and the verdict does not depend on the host
fields, so the no-header bypass and the Origin/Host comparison are never
reached. -/
theorem C1_sec_fetch_site_mapping (cfg : PolicyConfig) (view : RequestView) (s : String)
    (hs : view.secFetchSite = some s) (hne : s ≠ "")
    (htr : trustedOriginHit cfg view.origin = false) :
    protect cfg view = Except.ok (validate_sec_fetch_site cfg s) ∧
    (∀ h xfh, protect cfg { view with host := h, xForwardedHost := xfh } = protect cfg view) ∧
    (py_lower_strip s = "same-origin" → validate_sec_fetch_site cfg s = Verdict.allow) ∧
    (py_lower_strip s = "none" → validate_sec_fetch_site cfg s = Verdict.allow) ∧
    (py_lower_strip s = "cross-site" →
      validate_sec_fetch_site cfg s = Verdict.reject "Cross-site requests are not allowed.") ∧
    (py_lower_strip s = "same-site" →
      validate_sec_fetch_site cfg s =
        (if cfg.allowSameSite then Verdict.allow
         else Verdict.reject "Same-site requests are not allowed.")) := by
  have hmain : protect cfg view = Except.ok (validate_sec_fetch_site cfg s) := by
    unfold protect
    simp [htr, hs, headerTruthy, hne]
  refine ⟨hmain, ?_, ?_, ?_, ?_, ?_⟩
  · intro h xfh
    rw [hmain]
    unfold protect
    simp [htr, hs, headerTruthy, hne]
  · intro hv; simp [validate_sec_fetch_site, hv]
  · intro hv; simp [validate_sec_fetch_site, hv]
  · intro hv; simp [validate_sec_fetch_site, hv]
  · intro hv; simp [validate_sec_fetch_site, hv]

/-- Witness for C1 at a concrete input: Sec-Fetch-Site cross-site on a
protected POST with the default configuration. -/
theorem C1_sec_fetch_site_mapping_witness :
    protect defaultConfig crossSiteView =
      Except.ok (validate_sec_fetch_site defaultConfig "cross-site") ∧
    validate_sec_fetch_site defaultConfig "cross-site" =
      Verdict.reject "Cross-site requests are not allowed." := by
  have h := C1_sec_fetch_site_mapping defaultConfig crossSiteView "cross-site"
    rfl (by decide) (by decide)
  exact ⟨h.1, h.2.2.2.2.1 (by decide)⟩

/-- C2: the classifier is not total.  A protected POST whose Origin header
is present but carries a non-numeric port makes the Origin/Host comparison
raise ValueError (the error branch) instead of returning a verdict. -/
theorem C2_malformed_origin_port_raises :
    sec_fetch_csrf_protect defaultConfig emptyRegistry
      { postView with origin := some "https://example.com:notaport" } =
    Except.error "Port could not be cast to integer value as notaport" := by decide

/-- Counterexample for C3: for origin https://example.com:80 the code keeps
the hostname alone (80 is elided although the scheme default of https is
443), while the claim demands hostname:port. -/
theorem C3_counterexample :
    extract_host "https://example.com:80" = Except.ok (some "example.com") ∧
    specNormalizeOriginHost "https://example.com:80" = Except.ok (some "example.com:80") ∧
    extract_host "https://example.com:80" ≠ specNormalizeOriginHost "https://example.com:80" := by
  exact ⟨by decide, by decide, by decide⟩

/-- C3 amended: the code normalizes to the hostname alone exactly when the
port is absent, zero, or equal to 80 or 443 irrespective of the scheme, and
to hostname:port otherwise; in particular http://example.com compares as
example.com (Allow against host example.com) and http://example.com:8080
compares as example.com:8080 (Reject against host example.com). -/
theorem C3_amended_normalization :
    (∀ origin, extract_host origin = amendedNormalizeOriginHost origin) ∧
    extract_host "http://example.com" = Except.ok (some "example.com") ∧
    extract_host "http://example.com:8080" = Except.ok (some "example.com:8080") ∧
    protect defaultConfig
      { postView with origin := some "http://example.com", host := "example.com" } =
      Except.ok Verdict.allow ∧
    protect defaultConfig
      { postView with origin := some "http://example.com:8080", host := "example.com" } =
      Except.ok (Verdict.reject "Origin mismatch: http://example.com:8080") := by
  refine ⟨?_, by decide, by decide, by decide, by decide⟩
  intro origin
  unfold extract_host amendedNormalizeOriginHost
  cases hu : urlsplitModel origin with
  | error e => rfl
  | ok su =>
    cases hp : parsedPortOf su.netloc.toList with
    | error e =>
      simp only [String.toList] at hp
      simp [hp]
    | ok portOpt =>
      simp only [String.toList] at hp
      cases portOpt with
      | none => simp [hp]
      | some p =>
        by_cases h0 : p = 0 <;> by_cases h80 : p = 80 <;> by_cases h443 : p = 443 <;>
          simp [hp, h0, h80, h443]

/-- C4: a truthy Origin header that appears verbatim in the trusted-origins
list short-circuits both protect and the whole handler to allow, whatever
the Sec-Fetch-Site header carries. -/
theorem C4_trusted_origin_short_circuit (cfg : PolicyConfig) (reg : ExemptionRegistry)
    (view : RequestView) (o : String)
    (ho : view.origin = some o) (hne : o ≠ "") (hmem : o ∈ cfg.trustedOrigins) :
    protect cfg view = Except.ok Verdict.allow ∧
    sec_fetch_csrf_protect cfg reg view = Except.ok Verdict.allow := by
  have hp : protect cfg view = Except.ok Verdict.allow := by
    unfold protect
    simp [trustedOriginHit, ho, headerTruthy, hne, hmem]
  exact ⟨hp, protect_allow_handler_allow cfg reg view hp⟩

/-- Witness for C4 at a concrete input: trusted Origin together with
Sec-Fetch-Site cross-site. -/
theorem C4_trusted_origin_short_circuit_witness :
    protect trustedCfg trustedView = Except.ok Verdict.allow ∧
    sec_fetch_csrf_protect trustedCfg emptyRegistry trustedView = Except.ok Verdict.allow :=
  C4_trusted_origin_short_circuit trustedCfg emptyRegistry trustedView
    "https://trusted.example.com" rfl (by decide) (by decide)

/-- C5: a request whose method is GET, HEAD, OPTIONS or TRACE is always
allowed, whatever the headers, the protected-methods list and the rest of
the configuration are. -/
theorem C5_safe_methods_allow (cfg : PolicyConfig) (reg : ExemptionRegistry)
    (view : RequestView) (h : view.method ∈ SAFE_METHODS) :
    sec_fetch_csrf_protect cfg reg view = Except.ok Verdict.allow := by
  unfold sec_fetch_csrf_protect
  simp [h]

/-- Witness for C5 at a concrete input: GET with hostile provenance
headers. -/
theorem C5_safe_methods_allow_witness :
    sec_fetch_csrf_protect defaultConfig emptyRegistry hostileGetView =
      Except.ok Verdict.allow :=
  C5_safe_methods_allow defaultConfig emptyRegistry hostileGetView (by decide)

/-- C6: when both the Sec-Fetch-Site header and the Origin header are
absent, protect and the whole handler allow the request, for every
configuration and registry. -/
theorem C6_no_headers_allow (cfg : PolicyConfig) (reg : ExemptionRegistry)
    (view : RequestView) (ho : view.origin = none) (hs : view.secFetchSite = none) :
    protect cfg view = Except.ok Verdict.allow ∧
    sec_fetch_csrf_protect cfg reg view = Except.ok Verdict.allow := by
  have hp : protect cfg view = Except.ok Verdict.allow := by
    unfold protect
    simp [trustedOriginHit, ho, hs, headerTruthy]
  exact ⟨hp, protect_allow_handler_allow cfg reg view hp⟩

/-- Witness for C6 at a concrete input: headerless POST under the default
configuration. -/
theorem C6_no_headers_allow_witness :
    protect defaultConfig postView = Except.ok Verdict.allow ∧
    sec_fetch_csrf_protect defaultConfig emptyRegistry postView = Except.ok Verdict.allow :=
  C6_no_headers_allow defaultConfig emptyRegistry postView rfl rfl

/-- C7: with Origin present, Sec-Fetch-Site absent and the trusted list not
matching, protect compares the normalized origin host byte-for-byte against
the effective host — the X-Forwarded-Host header when present, else the
Host header — allowing on equality and rejecting with reason
Origin mismatch: followed by the Origin value otherwise. -/
theorem C7_origin_host_comparison (cfg : PolicyConfig) (view : RequestView)
    (o : String) (originHost : Option String)
    (ho : view.origin = some o) (hne : o ≠ "")
    (hs : headerTruthy view.secFetchSite = false)
    (hnt : o ∉ cfg.trustedOrigins)
    (hex : extract_host o = Except.ok originHost) :
    protect cfg view =
      Except.ok (if originHostEq originHost (get_target_host view) then Verdict.allow
        else Verdict.reject ("Origin mismatch: " ++ o)) ∧
    (view.xForwardedHost = none → get_target_host view = view.host) ∧
    (∀ x, view.xForwardedHost = some x → get_target_host view = x) := by
  refine ⟨?_, ?_, ?_⟩
  · have h1 : trustedOriginHit cfg view.origin = false := by
      rw [ho]; simp [trustedOriginHit, headerTruthy, hne, hnt]
    have h2 : headerTruthy view.origin = true := by
      rw [ho]; simp [headerTruthy, hne]
    unfold protect validate_origin
    rw [h1, hs, h2, ho]
    simp [hex]
    cases h : originHostEq originHost (get_target_host view) <;> simp [h]
  · intro hx; simp [get_target_host, hx]
  · intro x hx; simp [get_target_host, hx]

/-- Witness for C7 at a concrete input: Origin https://evil.com against
effective host localhost. -/
theorem C7_origin_host_comparison_witness :
    extract_host "https://evil.com" = Except.ok (some "evil.com") ∧
    protect defaultConfig mismatchView =
      Except.ok (if originHostEq (some "evil.com") (get_target_host mismatchView) then Verdict.allow
        else Verdict.reject ("Origin mismatch: " ++ "https://evil.com")) :=
  ⟨by decide,
   (C7_origin_host_comparison defaultConfig mismatchView "https://evil.com" (some "evil.com")
      rfl (by decide) rfl (by decide) (by decide)).1⟩

/-- Counterexample for C8: the raw value Foo is an unknown Sec-Fetch-Site
value, yet the rejection message interpolates the normalized value foo and
does not contain the value Foo exactly as it appeared in the request. -/
theorem C8_counterexample :
    validate_sec_fetch_site defaultConfig "Foo" =
      Verdict.reject "Unknown Sec-Fetch-Site value: foo" ∧
    strContains "Unknown Sec-Fetch-Site value: foo" "Foo" = false := by
  exact ⟨by decide, by decide⟩

/-- C8 amended: for every Sec-Fetch-Site value whose normalization
(lowercased, whitespace-trimmed) differs from the four known values, the
evaluation rejects with reason Unknown Sec-Fetch-Site value: followed by
the normalized value, and the message contains that normalized value. -/
theorem C8_amended_unknown_value (cfg : PolicyConfig) (s : String)
    (h1 : py_lower_strip s ≠ "same-origin") (h2 : py_lower_strip s ≠ "none")
    (h3 : py_lower_strip s ≠ "same-site") (h4 : py_lower_strip s ≠ "cross-site") :
    validate_sec_fetch_site cfg s =
      Verdict.reject ("Unknown Sec-Fetch-Site value: " ++ py_lower_strip s) ∧
    strContains ("Unknown Sec-Fetch-Site value: " ++ py_lower_strip s)
      (py_lower_strip s) = true := by
  constructor
  · simp [validate_sec_fetch_site, h1, h2, h3, h4]
  · exact strContains_append_right _ _

/-- Witness for C8 at a concrete input: the unknown value evil-value. -/
theorem C8_amended_unknown_value_witness :
    validate_sec_fetch_site defaultConfig "evil-value" =
      Verdict.reject ("Unknown Sec-Fetch-Site value: " ++ py_lower_strip "evil-value") ∧
    strContains ("Unknown Sec-Fetch-Site value: " ++ py_lower_strip "evil-value")
      (py_lower_strip "evil-value") = true :=
  C8_amended_unknown_value defaultConfig "evil-value"
    (by decide) (by decide) (by decide) (by decide)

/-- C9: exempting the same view or blueprint twice leaves the registry
exactly as one exemption does, and every call returns the argument
unchanged. -/
theorem C9_exempt_idempotent (reg : ExemptionRegistry) (x : Exemptable) :
    (exempt (exempt reg x).1 x).1 = (exempt reg x).1 ∧
    (exempt reg x).2 = x ∧ (exempt (exempt reg x).1 x).2 = x := by
  cases x with
  | blueprint n =>
    refine ⟨?_, rfl, rfl⟩
    simp [exempt, List.insert_of_mem (List.mem_insert_self n reg.exemptBlueprints)]
  | view m n =>
    refine ⟨?_, rfl, rfl⟩
    simp [exempt,
      List.insert_of_mem (List.mem_insert_self (viewLocationOf m n) reg.exemptViews)]

/-- C10: a present-but-empty Origin header and a present-but-empty
Sec-Fetch-Site header behave exactly like absent headers — the handler
allows the request through the no-header bypass and its verdict equals the
verdict on the same request with both headers removed. -/
theorem C10_empty_headers_as_absent (cfg : PolicyConfig) (reg : ExemptionRegistry)
    (view : RequestView)
    (ho : view.origin = some "") (hs : view.secFetchSite = some "") :
    protect cfg view = Except.ok Verdict.allow ∧
    sec_fetch_csrf_protect cfg reg view = Except.ok Verdict.allow ∧
    sec_fetch_csrf_protect cfg reg view =
      sec_fetch_csrf_protect cfg reg { view with origin := none, secFetchSite := none } := by
  have hp : protect cfg view = Except.ok Verdict.allow := by
    unfold protect
    simp [trustedOriginHit, ho, hs, headerTruthy]
  have hp2 : protect cfg { view with origin := none, secFetchSite := none } =
      Except.ok Verdict.allow := by
    unfold protect
    simp [trustedOriginHit, headerTruthy]
  have h1 := protect_allow_handler_allow cfg reg view hp
  have h2 := protect_allow_handler_allow cfg reg
    { view with origin := none, secFetchSite := none } hp2
  exact ⟨hp, h1, by rw [h1, h2]⟩

/-- Witness for C10 at a concrete input: protected POST whose Origin and
Sec-Fetch-Site headers are present but empty, under the default
configuration. -/
theorem C10_empty_headers_as_absent_witness :
    protect defaultConfig emptyHeadersView = Except.ok Verdict.allow ∧
    sec_fetch_csrf_protect defaultConfig emptyRegistry emptyHeadersView =
      Except.ok Verdict.allow ∧
    sec_fetch_csrf_protect defaultConfig emptyRegistry emptyHeadersView =
      sec_fetch_csrf_protect defaultConfig emptyRegistry
        { emptyHeadersView with origin := none, secFetchSite := none } :=
  C10_empty_headers_as_absent defaultConfig emptyRegistry emptyHeadersView rfl rfl
